import Mathlib

/-!
Verification of the singerbox repository: the share-link decoder
(`Parse` and the six protocol parsers) and the `ProxyBox` lifecycle
state machine.  Go strings are modelled as Lean strings (lists of
characters); byte-level operations agree with Go on ASCII content.
Machine integers are modelled as `Int`/`Nat` with explicit reduction
modulo 2^16 where Go converts to `uint16`.
-/

namespace Singerbox

/-! ## Go string primitives -/

/-- strings.Split with a one-character separator: split on every occurrence.
Go returns `[""]` on the empty string, which this definition matches. -/
def splitCh (sep : Char) : List Char → List (List Char)
  | [] => [[]]
  | c :: cs =>
    match splitCh sep cs with
    | [] => [[]]
    | h :: t => if c = sep then [] :: h :: t else (c :: h) :: t

/-- Cut at the first occurrence of a separator (strings.SplitN with n = 2 /
strings.Cut): the part before, and the part after when the separator occurs. -/
def cutAt (sep : Char) : List Char → List Char × Option (List Char)
  | [] => ([], none)
  | c :: cs =>
    if c = sep then ([], some cs)
    else
      let r := cutAt sep cs
      (c :: r.1, r.2)

/-- unicode.IsSpace, the whitespace set used by strings.TrimSpace and by the
fmt scanner: ASCII whitespace plus the Unicode White_Space code points. -/
def isGoSpace (c : Char) : Bool :=
  c = ' ' || c = '\t' || c = '\n' || c.toNat = 0x0B || c.toNat = 0x0C || c = '\r' ||
  c.toNat = 0x85 || c.toNat = 0xA0 || c.toNat = 0x1680 ||
  (0x2000 ≤ c.toNat && c.toNat ≤ 0x200A) || c.toNat = 0x2028 || c.toNat = 0x2029 ||
  c.toNat = 0x202F || c.toNat = 0x205F || c.toNat = 0x3000

/-- strings.TrimSpace on the character list. -/
def trimSpaceL (s : List Char) : List Char :=
  ((s.dropWhile isGoSpace).reverse.dropWhile isGoSpace).reverse

/-- strings.TrimSpace. -/
def goTrimSpace (s : String) : String := ⟨trimSpaceL s.data⟩

/-- The UTF-8 byte size of one character, as Go counts string bytes. -/
def utf8SizeC (c : Char) : Nat :=
  if c.toNat ≤ 0x7F then 1 else if c.toNat ≤ 0x7FF then 2
  else if c.toNat ≤ 0xFFFF then 3 else 4

/-- Go's len() on a string: its UTF-8 byte count. -/
def goLen (s : String) : Nat := s.data.foldr (fun c n => utf8SizeC c + n) 0

/-- strings.HasPrefix on character lists (first argument the string, second
the candidate leading part). -/
def startsWithL : List Char → List Char → Bool
  | _, [] => true
  | [], _ :: _ => false
  | c :: cs, p :: ps => c = p && startsWithL cs ps

/-- strings.TrimPrefix on character lists. -/
def trimPreL (s pre : List Char) : List Char :=
  if startsWithL s pre then s.drop pre.length else s

/-- strings.LastIndex(s, sub) for the two-character needle of "]:" form used
by the port helpers: the parts strictly before and strictly after the last
occurrence of the bracket-colon pair. -/
def splitLastBrColon : List Char → Option (List Char × List Char)
  | [] => none
  | c :: cs =>
    match splitLastBrColon cs with
    | some (a, b) => some (c :: a, b)
    | none =>
      match c, cs with
      | ']', ':' :: rest => some rest |>.map (fun r => ([], r))
      | _, _ => none

/-- strings.Split(s, sub)[0] for a multi-character needle: the part before the
first occurrence (the whole string when the needle is absent). -/
def beforeSub (pat : List Char) : List Char → List Char
  | [] => []
  | c :: cs =>
    if startsWithL (c :: cs) pat && !pat.isEmpty then []
    else c :: beforeSub pat cs

/-- The index of the first occurrence of a character, strings.IndexByte. -/
def idxOf (c : Char) : List Char → Option Nat
  | [] => none
  | x :: xs =>
    if x = c then some 0
    else (idxOf c xs).map (· + 1)

/-- The index of the last occurrence of a character, strings.LastIndexByte. -/
def lastIdxOf (c : Char) (s : List Char) : Option Nat :=
  (idxOf c s.reverse).map (fun i => s.length - 1 - i)

/-! ## Base64 (encoding/base64 as used by the decoder) -/

/-- Byte lists: every entry is kept below 256. -/
abbrev Bytes := List Nat

/-- Standard base64 alphabet value of one character. -/
def b64StdVal (c : Char) : Option Nat :=
  if 'A' ≤ c && c ≤ 'Z' then some (c.toNat - 65)
  else if 'a' ≤ c && c ≤ 'z' then some (c.toNat - 71)
  else if '0' ≤ c && c ≤ '9' then some (c.toNat + 4)
  else if c = '+' then some 62
  else if c = '/' then some 63
  else none

/-- URL-safe base64 alphabet value of one character. -/
def b64URLVal (c : Char) : Option Nat :=
  if 'A' ≤ c && c ≤ 'Z' then some (c.toNat - 65)
  else if 'a' ≤ c && c ≤ 'z' then some (c.toNat - 71)
  else if '0' ≤ c && c ≤ '9' then some (c.toNat + 4)
  else if c = '-' then some 62
  else if c = '_' then some 63
  else none

/-- Decode base64 quanta of four characters with mandatory padding, as Go's
padded encodings do.  Padding is accepted only in the final quantum; any
other character outside the alphabet is a decode error. -/
def b64Groups (val : Char → Option Nat) : List Char → Option Bytes
  | [] => some []
  | c1 :: c2 :: c3 :: c4 :: rest =>
    match val c1, val c2 with
    | some v1, some v2 =>
      if c3 = '=' && c4 = '=' && rest.isEmpty then
        some [(v1 * 4 + v2 / 16) % 256]
      else if c4 = '=' && rest.isEmpty then
        match val c3 with
        | some v3 => some [(v1 * 4 + v2 / 16) % 256, ((v2 % 16) * 16 + v3 / 4) % 256]
        | none => none
      else
        match val c3, val c4 with
        | some v3, some v4 =>
          (b64Groups val rest).map
            (fun bs => (v1 * 4 + v2 / 16) % 256 :: ((v2 % 16) * 16 + v3 / 4) % 256 ::
                       ((v3 % 4) * 64 + v4) % 256 :: bs)
        | _, _ => none
    | _, _ => none
  | _ => none

/-- Decode unpadded base64, as Go's raw encodings do: the final quantum may
hold two or three characters; a length of one more than a multiple of four is
an error, and the padding character is outside the alphabet. -/
def b64GroupsRaw (val : Char → Option Nat) : List Char → Option Bytes
  | [] => some []
  | [c1, c2] =>
    match val c1, val c2 with
    | some v1, some v2 => some [(v1 * 4 + v2 / 16) % 256]
    | _, _ => none
  | [c1, c2, c3] =>
    match val c1, val c2, val c3 with
    | some v1, some v2, some v3 =>
      some [(v1 * 4 + v2 / 16) % 256, ((v2 % 16) * 16 + v3 / 4) % 256]
    | _, _, _ => none
  | c1 :: c2 :: c3 :: c4 :: rest =>
    match val c1, val c2, val c3, val c4 with
    | some v1, some v2, some v3, some v4 =>
      (b64GroupsRaw val rest).map
        (fun bs => (v1 * 4 + v2 / 16) % 256 :: ((v2 % 16) * 16 + v3 / 4) % 256 ::
                   ((v3 % 4) * 64 + v4) % 256 :: bs)
    | _, _, _, _ => none
  | _ => none

/-- Go's base64 decoder discards carriage returns and newlines before
decoding. -/
def stripNewlines (s : List Char) : List Char :=
  s.filter (fun c => !(c = '\n' || c = '\r'))

/-- base64.StdEncoding.DecodeString. -/
def b64DecodeStd (s : List Char) : Option Bytes := b64Groups b64StdVal (stripNewlines s)

/-- base64.RawStdEncoding.DecodeString. -/
def b64DecodeRawStd (s : List Char) : Option Bytes := b64GroupsRaw b64StdVal (stripNewlines s)

/-- base64.URLEncoding.DecodeString. -/
def b64DecodeURL (s : List Char) : Option Bytes := b64Groups b64URLVal (stripNewlines s)

/-- Go's string(bytes) conversion, read back into the character model.  Bytes
are taken as code points; this agrees with Go for ASCII payloads. -/
def bytesToChars (bs : Bytes) : List Char := bs.map Char.ofNat

/-! ## fmt.Sscanf with a single %d verb -/

def digitsToNat (ds : List Char) : Nat :=
  ds.foldl (fun n c => n * 10 + (c.toNat - 48)) 0

/-- Model of fmt.Sscanf(s, "%d", &x): skip leading white space, an optional
sign, then a maximal nonempty run of decimal digits; anything left after the
digits is not consumed and not an error.  No digits, or a value outside the
64-bit integer range, is a scan error (none). -/
def sscanfD (s : List Char) : Option Int :=
  let s1 := s.dropWhile isGoSpace
  let signed : Bool × List Char :=
    match s1 with
    | '-' :: r => (true, r)
    | '+' :: r => (false, r)
    | _ => (false, s1)
  let ds := signed.2.takeWhile (fun c => '0' ≤ c && c ≤ '9')
  if ds.isEmpty then none
  else
    let v : Int := if signed.1 then -(Int.ofNat (digitsToNat ds)) else Int.ofNat (digitsToNat ds)
    if v < -(2 ^ 63) ∨ 2 ^ 63 - 1 < v then none else some v

/-! ## The UUID shape check (uuidRegex) -/

def isHexDigit (c : Char) : Bool :=
  ('0' ≤ c && c ≤ '9') || ('a' ≤ c && c ≤ 'f') || ('A' ≤ c && c ≤ 'F')

/-- Consume exactly n hexadecimal digits. -/
def dropHex : Nat → List Char → Option (List Char)
  | 0, s => some s
  | n + 1, c :: cs => if isHexDigit c then dropHex n cs else none
  | _ + 1, [] => none

/-- Consume one dash when present. -/
def dropDashOpt : List Char → List Char
  | '-' :: cs => cs
  | s => s

/-- uuidRegex.MatchString: 32 hexadecimal digits in 8-4-4-4-12 grouping with
each dash optional, anchored at both ends. -/
def uuidMatch (s : String) : Bool :=
  (do
    let r1 ← dropHex 8 s.data
    let r2 ← dropHex 4 (dropDashOpt r1)
    let r3 ← dropHex 4 (dropDashOpt r2)
    let r4 ← dropHex 4 (dropDashOpt r3)
    let r5 ← dropHex 12 (dropDashOpt r4)
    if r5.isEmpty then some () else none).isSome

/-! ## Model of net/url.Parse (the subset the protocol parsers consume) -/

def hexVal (c : Char) : Option Nat :=
  if '0' ≤ c && c ≤ '9' then some (c.toNat - 48)
  else if 'a' ≤ c && c ≤ 'f' then some (c.toNat - 87)
  else if 'A' ≤ c && c ≤ 'F' then some (c.toNat - 55)
  else none

/-- net/url percent-unescaping: a percent sign introduces two hexadecimal
digits; an incomplete or malformed escape is an error.  In query mode a plus
becomes a space.  Escaped bytes are read as code points (ASCII-faithful). -/
def unescapeL (plusToSpace : Bool) : List Char → Option (List Char)
  | [] => some []
  | '%' :: h1 :: h2 :: rest =>
    match hexVal h1, hexVal h2 with
    | some a, some b => (unescapeL plusToSpace rest).map (fun r => Char.ofNat (a * 16 + b) :: r)
    | _, _ => none
  | '%' :: _ => none
  | '+' :: rest =>
    (unescapeL plusToSpace rest).map (fun r => (if plusToSpace then ' ' else '+') :: r)
  | c :: rest => (unescapeL plusToSpace rest).map (fun r => c :: r)

/-- The userinfo of a URL: Username() and Password() with Go's empty-string
defaults already applied, present only when the authority holds an at sign. -/
structure GoUserinfo where
  username : String
  password : String
deriving DecidableEq

/-- The components of a parsed URL that the decoder reads: Scheme, User,
Host (unescaped, port and brackets kept), RawQuery and Fragment. -/
structure GoURL where
  scheme : String
  user : Option GoUserinfo
  host : String
  rawQuery : String
  fragment : String
deriving DecidableEq

/-- u.User.Username() with Go's nil-receiver default. -/
def usernameOf : Option GoUserinfo → String
  | none => ""
  | some ui => ui.username

/-- u.User.Password() with Go's nil-receiver and unset defaults. -/
def passwordOf : Option GoUserinfo → String
  | none => ""
  | some ui => ui.password

/-- net/url stripPort: drop the port from a host:port string, also dropping
square brackets from a bracketed address. -/
def stripPort (h : List Char) : List Char :=
  match lastIdxOf ':' h with
  | none => h
  | some colon =>
    match idxOf ']' h with
    | some i => trimPreL (h.take i) ['[']
    | none => h.take colon

/-- u.Hostname(). -/
def GoURL.hostname (u : GoURL) : String := ⟨stripPort u.host.data⟩

/-- net/url validOptionalPort: empty, or a colon followed by decimal digits. -/
def validOptionalPort : List Char → Bool
  | [] => true
  | ':' :: ds => ds.all (fun c => '0' ≤ c && c ≤ '9')
  | _ => false

/-- net/url validUserinfo: the characters permitted in the userinfo part. -/
def validUserinfoChar (c : Char) : Bool :=
  ('A' ≤ c && c ≤ 'Z') || ('a' ≤ c && c ≤ 'z') || ('0' ≤ c && c ≤ '9') ||
  c ∈ ['-', '.', '_', ':', '~', '!', '$', '&', Char.ofNat 39,
       '(', ')', '*', '+', ',', ';', '=', '%', '@']

/-- net/url parseHost: a bracketed host needs its closing bracket and a valid
optional port after it; otherwise the part from the last colon must be a valid
optional port; then the host is percent-unescaped (brackets and port kept). -/
def parseHostL (host : List Char) : Option (List Char) :=
  if startsWithL host ['['] then
    match lastIdxOf ']' host with
    | none => none
    | some i =>
      if validOptionalPort (host.drop (i + 1)) then unescapeL false host else none
  else
    match lastIdxOf ':' host with
    | none => unescapeL false host
    | some i => if validOptionalPort (host.drop i) then unescapeL false host else none

def isLetterA (c : Char) : Bool :=
  ('A' ≤ c && c ≤ 'Z') || ('a' ≤ c && c ≤ 'z')

def isSchemeChar (c : Char) : Bool :=
  isLetterA c || ('0' ≤ c && c ≤ '9') || c = '+' || c = '-' || c = '.'

/-- net/url getScheme: a leading letter starts a run of scheme characters that
must end in a colon to count as a scheme; a colon at position zero is an
error; anything else means the URL simply has no scheme. -/
def getSchemeL (s : List Char) : Option (List Char × List Char) :=
  match s with
  | [] => some ([], [])
  | c :: _ =>
    if c = ':' then none
    else if !isLetterA c then some ([], s)
    else
      let pre := s.takeWhile isSchemeChar
      match s.drop pre.length with
      | ':' :: r => some (pre, r)
      | _ => some ([], s)

/-- One query pair list in order, dropping the components net/url's Query()
drops: empty components, components holding a semicolon, and components whose
key or value fails to unescape. -/
def queryPairs : List (List Char) → List (List Char × List Char)
  | [] => []
  | p :: rest =>
    let r := queryPairs rest
    if p.isEmpty || p.contains ';' then r
    else
      let kv := cutAt '=' p
      match unescapeL true kv.1, unescapeL true (kv.2.getD []) with
      | some kd, some vd => (kd, vd) :: r
      | _, _ => r

/-- url.Values.Get on the raw query: the first value recorded for the key,
empty when the key is absent. -/
def queryGet (rawQuery key : String) : String :=
  match (queryPairs (splitCh '&' rawQuery.data)).find? (fun kv => kv.1 = key.data) with
  | some kv => ⟨kv.2⟩
  | none => ""

/-- Model of net/url.Parse restricted to what the share-link parsers consume:
control characters are rejected; the fragment is split at the first hash and
unescaped; the scheme is extracted and lowercased; the query is split at the
first question mark; a double slash introduces an authority whose userinfo
sits before the last at sign and is validated and unescaped; the host is
validated by parseHost.  Without a double slash the URL has no user and no
host. -/
def goURLParse (s : String) : Option GoURL :=
  let cs := s.data
  if cs.any (fun c => c.toNat < 32 || c.toNat = 127) then none
  else
    let cut1 := cutAt '#' cs
    match (match cut1.2 with
           | none => some []
           | some f => unescapeL false f) with
    | none => none
    | some fragDec =>
      match getSchemeL cut1.1 with
      | none => none
      | some (schemeRaw, rest) =>
        let scheme : String := ⟨schemeRaw.map Char.toLower⟩
        let cut2 := cutAt '?' rest
        let rawQuery : String := ⟨cut2.2.getD []⟩
        if startsWithL cut2.1 ['/', '/'] then
          let authority := (cut2.1.drop 2).takeWhile (fun c => c ≠ '/')
          match lastIdxOf '@' authority with
          | none =>
            match parseHostL authority with
            | none => none
            | some h =>
              some { scheme := scheme, user := none, host := ⟨h⟩,
                     rawQuery := rawQuery, fragment := ⟨fragDec⟩ }
          | some i =>
            let ui := authority.take i
            let hostPart := authority.drop (i + 1)
            if !ui.all validUserinfoChar then none
            else
              let unp := cutAt ':' ui
              match unescapeL false unp.1,
                    (match unp.2 with | none => some [] | some p => unescapeL false p) with
              | some un, some pw =>
                match parseHostL hostPart with
                | none => none
                | some h =>
                  some { scheme := scheme,
                         user := some { username := ⟨un⟩, password := ⟨pw⟩ },
                         host := ⟨h⟩, rawQuery := rawQuery, fragment := ⟨fragDec⟩ }
              | _, _ => none
        else
          some { scheme := scheme, user := none, host := "",
                 rawQuery := rawQuery, fragment := ⟨fragDec⟩ }

/-! ## The outbound descriptor data model (sing-box option types in use) -/

/-- option.OutboundUTLSOptions. -/
structure UTLSOptions where
  enabled : Bool
  fingerprint : String
deriving DecidableEq

/-- option.OutboundRealityOptions. -/
structure RealityOptions where
  enabled : Bool
  publicKey : String
  shortID : String
deriving DecidableEq

/-- option.OutboundTLSOptions (the fields the decoder writes). -/
structure TLSOptions where
  enabled : Bool
  serverName : String
  utls : Option UTLSOptions := none
  reality : Option RealityOptions := none
deriving DecidableEq

/-- option.V2RayTransportOptions (the fields the decoder writes; the
websocket Host header entry is present only when set). -/
structure TransportOptions where
  type_ : String
  wsPath : String := ""
  wsHost : Option String := none
  grpcServiceName : String := ""
  httpHost : List String := []
  httpPath : String := ""
deriving DecidableEq

/-- option.ServerOptions: server address and a uint16 port. -/
structure ServerOptions where
  server : String
  serverPort : Nat
deriving DecidableEq

/-- option.VLESSOutboundOptions. -/
structure VLESSOptions where
  serverOptions : ServerOptions
  uuid : String
  flow : String := ""
  tls : Option TLSOptions := none
  transport : Option TransportOptions := none
deriving DecidableEq

/-- option.VMessOutboundOptions. -/
structure VMessOptions where
  serverOptions : ServerOptions
  uuid : String
  security : String
  tls : Option TLSOptions := none
  transport : Option TransportOptions := none
deriving DecidableEq

/-- option.ShadowsocksOutboundOptions. -/
structure ShadowsocksOptions where
  serverOptions : ServerOptions
  method : String
  password : String
deriving DecidableEq

/-- option.TrojanOutboundOptions. -/
structure TrojanOptions where
  serverOptions : ServerOptions
  password : String
  tls : Option TLSOptions := none
  transport : Option TransportOptions := none
deriving DecidableEq

/-- option.SOCKSOutboundOptions. -/
structure SOCKSOptions where
  serverOptions : ServerOptions
  version : String
  username : String := ""
  password : String := ""
deriving DecidableEq

/-- option.HTTPOutboundOptions. -/
structure HTTPOptions where
  serverOptions : ServerOptions
  username : String := ""
  password : String := ""
  tls : Option TLSOptions := none
deriving DecidableEq

/-- The protocol-specific payload attached to an outbound (closed sum over
the option types this repository constructs). -/
inductive OutboundOptions
  | vless (o : VLESSOptions)
  | vmess (o : VMessOptions)
  | shadowsocks (o : ShadowsocksOptions)
  | trojan (o : TrojanOptions)
  | socks (o : SOCKSOptions)
  | http (o : HTTPOptions)
  | direct
  | block
deriving DecidableEq

/-- option.Outbound. -/
structure Outbound where
  type_ : String
  tag : String
  options : OutboundOptions
deriving DecidableEq

/-- The server port carried by an outbound (zero for the payload-free direct
and block outbounds). -/
def Outbound.port (o : Outbound) : Nat :=
  match o.options with
  | .vless v => v.serverOptions.serverPort
  | .vmess v => v.serverOptions.serverPort
  | .shadowsocks v => v.serverOptions.serverPort
  | .trojan v => v.serverOptions.serverPort
  | .socks v => v.serverOptions.serverPort
  | .http v => v.serverOptions.serverPort
  | .direct => 0
  | .block => 0

/-- Go's conversion from int to uint16: the value modulo 2^16. -/
def toU16 (i : Int) : Nat := (i % 65536).toNat

/-! ## The shared port helpers -/

/-- The in-range explicit port of a host:port string: the branch of
getPortWithDefault that returns a parsed value.  A bracketed address is cut
at the last bracket-colon pair; otherwise the string is split on colons and
the last piece is scanned; the scanned value counts only when it lies in
[1,65535]. -/
def portFromHostPort (hostPort : String) : Option Int :=
  let cs := hostPort.data
  if startsWithL cs ['['] then
    match splitLastBrColon cs with
    | some br =>
      match sscanfD br.2 with
      | some p => if 1 ≤ p ∧ p ≤ 65535 then some p else none
      | none => none
    | none => none
  else
    let parts := splitCh ':' cs
    if parts.length < 2 then none
    else
      match sscanfD (parts.getLastD []) with
      | some p => if 1 ≤ p ∧ p ≤ 65535 then some p else none
      | none => none

/-- getPortWithDefault from the decoder source: the explicit in-range port of
the host:port string, or the supplied default. -/
def getPortWithDefault (hostPort : String) (defaultPort : Int) : Int :=
  (portFromHostPort hostPort).getD defaultPort

/-- getPort from the decoder source: default 443 for the TLS protocols. -/
def getPort (hostPort : String) : Int := getPortWithDefault hostPort 443

/-! ## ParseVLESS -/

/-- The transport switch shared by the VLESS parser: the type query parameter
selects websocket, gRPC or HTTP/2 transport options. -/
def vlessTransportOf (rawQuery : String) : Option TransportOptions :=
  match queryGet rawQuery "type" with
  | "ws" =>
    some { type_ := "ws", wsPath := queryGet rawQuery "path",
           wsHost := if queryGet rawQuery "host" ≠ "" then some (queryGet rawQuery "host") else none }
  | "grpc" =>
    some { type_ := "grpc", grpcServiceName := queryGet rawQuery "serviceName" }
  | "http" =>
    some { type_ := "http", httpHost := [queryGet rawQuery "host"],
           httpPath := queryGet rawQuery "path" }
  | "h2" =>
    some { type_ := "http", httpHost := [queryGet rawQuery "host"],
           httpPath := queryGet rawQuery "path" }
  | _ => none

/-- ParseVLESS from the decoder source. -/
def ParseVLESS (link : String) : Except String Outbound :=
  match goURLParse link with
  | none => .error "url parse error"
  | some u =>
    let uuid := usernameOf u.user
    if uuid = "" then .error "missing UUID in VLESS link"
    else if !uuidMatch uuid then .error "invalid UUID format in VLESS link"
    else
      let server := u.hostname
      if server = "" then .error "missing server in VLESS link"
      else
        let port := getPort u.host
        let security := queryGet u.rawQuery "security"
        let tlsRes : Except String (Option TLSOptions) :=
          if security = "tls" ∨ security = "reality" then
            if security = "reality" then
              let pbk := queryGet u.rawQuery "pbk"
              if pbk = "" then .error "missing public key (pbk) for Reality in VLESS link"
              else
                .ok (some { enabled := true, serverName := queryGet u.rawQuery "sni",
                            utls := some { enabled := true,
                                           fingerprint :=
                                             if queryGet u.rawQuery "fp" ≠ "" then
                                               queryGet u.rawQuery "fp" else "chrome" },
                            reality := some { enabled := true,
                                              publicKey := pbk,
                                              shortID := queryGet u.rawQuery "sid" } })
            else .ok (some { enabled := true, serverName := queryGet u.rawQuery "sni" })
          else .ok none
        match tlsRes with
        | .error e => .error e
        | .ok tlsOpt =>
          .ok { type_ := "vless",
                tag := if u.fragment ≠ "" then u.fragment else "proxy",
                options := .vless
                  { serverOptions := { server := server, serverPort := toU16 port },
                    uuid := uuid,
                    flow := queryGet u.rawQuery "flow",
                    tls := tlsOpt,
                    transport := vlessTransportOf u.rawQuery } }

/-! ## ParseTrojan -/

/-- The transport switch of the Trojan parser: websocket or gRPC only. -/
def trojanTransportOf (rawQuery : String) : Option TransportOptions :=
  match queryGet rawQuery "type" with
  | "ws" =>
    some { type_ := "ws", wsPath := queryGet rawQuery "path",
           wsHost := if queryGet rawQuery "host" ≠ "" then some (queryGet rawQuery "host") else none }
  | "grpc" =>
    some { type_ := "grpc", grpcServiceName := queryGet rawQuery "serviceName" }
  | _ => none

/-- ParseTrojan from the decoder source. -/
def ParseTrojan (link : String) : Except String Outbound :=
  match goURLParse link with
  | none => .error "url parse error"
  | some u =>
    let password := usernameOf u.user
    if password = "" then .error "missing password in Trojan link"
    else
      let server := u.hostname
      if server = "" then .error "missing server in Trojan link"
      else
        let port := getPort u.host
        let sni := if queryGet u.rawQuery "sni" = "" then server else queryGet u.rawQuery "sni"
        .ok { type_ := "trojan",
              tag := if u.fragment ≠ "" then u.fragment else "proxy",
              options := .trojan
                { serverOptions := { server := server, serverPort := toU16 port },
                  password := password,
                  tls := some { enabled := true, serverName := sni },
                  transport := trojanTransportOf u.rawQuery } }

/-! ## ParseSOCKS -/

/-- ParseSOCKS from the decoder source: both scheme spellings are stripped
and the link reparsed under a fixed socks5 scheme. -/
def ParseSOCKS (link : String) : Except String Outbound :=
  let l1 := trimPreL link.data ("socks5://").data
  let l2 := trimPreL l1 ("socks://").data
  match goURLParse ⟨("socks5://").data ++ l2⟩ with
  | none => .error "url parse error"
  | some u =>
    let server := u.hostname
    if server = "" then .error "missing server in SOCKS link"
    else
      .ok { type_ := "socks", tag := "proxy",
            options := .socks
              { serverOptions := { server := server,
                                   serverPort := toU16 (getPortWithDefault u.host 1080) },
                version := "5",
                username := usernameOf u.user,
                password := passwordOf u.user } }

/-! ## ParseHTTP -/

/-- ParseHTTP from the decoder source: scheme-dependent default port, TLS
attached only for the https scheme. -/
def ParseHTTP (link : String) : Except String Outbound :=
  match goURLParse link with
  | none => .error "url parse error"
  | some u =>
    let server := u.hostname
    if server = "" then .error "missing server in HTTP link"
    else
      let defaultPort : Int := if u.scheme = "https" then 443 else 80
      .ok { type_ := "http", tag := "proxy",
            options := .http
              { serverOptions := { server := server,
                                   serverPort := toU16 (getPortWithDefault u.host defaultPort) },
                username := usernameOf u.user,
                password := passwordOf u.user,
                tls := if u.scheme = "https" then
                         some { enabled := true, serverName := "" }
                       else none } }

/-! ## ParseVMess -/

/-- vmessConfig: the JSON fields of a VMess share link, all strings, absent
fields left at Go's zero value. -/
structure VMessConfig where
  v : String := ""
  ps : String := ""
  add : String := ""
  port : String := ""
  id : String := ""
  aid : String := ""
  net : String := ""
  type_ : String := ""
  host : String := ""
  path : String := ""
  tls : String := ""
  sni : String := ""
  alpn : String := ""
deriving DecidableEq

def jsonIsWs (c : Char) : Bool := c = ' ' || c = '\t' || c = '\n' || c = '\r'

def jsonSkipWs (s : List Char) : List Char := s.dropWhile jsonIsWs

/-- The JSON string escapes the model accepts. -/
def jsonEscChar (c : Char) : Option Char :=
  if c = '"' then some '"'
  else if c = '\\' then some '\\'
  else if c = '/' then some '/'
  else if c = 'n' then some '\n'
  else if c = 't' then some '\t'
  else if c = 'r' then some '\r'
  else if c = 'b' then some (Char.ofNat 8)
  else if c = 'f' then some (Char.ofNat 12)
  else none

/-- Parse the body of a JSON string after its opening quote: the decoded
content and the remainder after the closing quote. -/
def jsonStr (fuel : Nat) (s : List Char) : Option (List Char × List Char) :=
  match fuel, s with
  | 0, _ => none
  | _ + 1, [] => none
  | f + 1, c :: rest =>
    if c = '"' then some ([], rest)
    else if c = '\\' then
      match rest with
      | [] => none
      | e :: rest2 =>
        match jsonEscChar e with
        | some d => (jsonStr f rest2).map (fun pr => (d :: pr.1, pr.2))
        | none => none
    else (jsonStr f rest).map (fun pr => (c :: pr.1, pr.2))

/-- Store one decoded key/value pair into the config; unknown keys are
ignored as encoding/json does. -/
def setVMField (cfg : VMessConfig) (k v : List Char) : VMessConfig :=
  if k = ("v").data then { cfg with v := ⟨v⟩ }
  else if k = ("ps").data then { cfg with ps := ⟨v⟩ }
  else if k = ("add").data then { cfg with add := ⟨v⟩ }
  else if k = ("port").data then { cfg with port := ⟨v⟩ }
  else if k = ("id").data then { cfg with id := ⟨v⟩ }
  else if k = ("aid").data then { cfg with aid := ⟨v⟩ }
  else if k = ("net").data then { cfg with net := ⟨v⟩ }
  else if k = ("type").data then { cfg with type_ := ⟨v⟩ }
  else if k = ("host").data then { cfg with host := ⟨v⟩ }
  else if k = ("path").data then { cfg with path := ⟨v⟩ }
  else if k = ("tls").data then { cfg with tls := ⟨v⟩ }
  else if k = ("sni").data then { cfg with sni := ⟨v⟩ }
  else if k = ("alpn").data then { cfg with alpn := ⟨v⟩ }
  else cfg

/-- Parse the members of the top-level JSON object, positioned after the
opening brace or after a comma. -/
def jsonMembers (fuel : Nat) (cfg : VMessConfig) (s : List Char) : Option VMessConfig :=
  match fuel with
  | 0 => none
  | f + 1 =>
    match jsonSkipWs s with
    | '"' :: rest =>
      match jsonStr rest.length rest with
      | none => none
      | some (k, rest2) =>
        match jsonSkipWs rest2 with
        | ':' :: rest3 =>
          match jsonSkipWs rest3 with
          | '"' :: rest4 =>
            match jsonStr rest4.length rest4 with
            | none => none
            | some (v, rest5) =>
              let cfg2 := setVMField cfg k v
              match jsonSkipWs rest5 with
              | ',' :: rest6 => jsonMembers f cfg2 rest6
              | '}' :: rest7 => if (jsonSkipWs rest7).isEmpty then some cfg2 else none
              | _ => none
          | _ => none
        | _ => none
    | _ => none

/-- Model of json.Unmarshal into vmessConfig, for a flat object whose values
are JSON strings (every vmessConfig field is a string; an object mapping a
declared field to a non-string value is an unmarshal error in Go and is
rejected here as well). -/
def jsonUnmarshalVMess (s : List Char) : Option VMessConfig :=
  match jsonSkipWs s with
  | '{' :: rest =>
    match jsonSkipWs rest with
    | '}' :: t => if (jsonSkipWs t).isEmpty then some {} else none
    | _ => jsonMembers s.length {} rest
  | _ => none

/-- The transport switch of the VMess parser on the net field. -/
def vmessTransportOf (vm : VMessConfig) : Option TransportOptions :=
  match vm.net with
  | "ws" =>
    some { type_ := "ws", wsPath := vm.path,
           wsHost := if vm.host ≠ "" then some vm.host else none }
  | "grpc" =>
    some { type_ := "grpc", grpcServiceName := vm.path }
  | "http" =>
    some { type_ := "http", httpHost := [vm.host], httpPath := vm.path }
  | "h2" =>
    some { type_ := "http", httpHost := [vm.host], httpPath := vm.path }
  | _ => none

/-- ParseVMess from the decoder source: strip the scheme, base64-decode
(standard then raw standard), unmarshal the JSON, validate, then build the
outbound.  The port field is scanned free-form into an int initialised to
443 and converted to uint16 without a range check. -/
def ParseVMess (link : String) : Except String Outbound :=
  let encoded := trimPreL link.data ("vmess://").data
  match (match b64DecodeStd encoded with
         | some d => some d
         | none => b64DecodeRawStd encoded) with
  | none => .error "invalid base64 encoding in VMess link"
  | some decoded =>
    match jsonUnmarshalVMess (bytesToChars decoded) with
    | none => .error "invalid JSON in VMess link"
    | some vm =>
      if vm.add = "" then .error "missing server address in VMess link"
      else if vm.id = "" then .error "missing UUID in VMess link"
      else if !uuidMatch vm.id then .error "invalid UUID format in VMess link"
      else
        let port : Int := match sscanfD vm.port.data with | some p => p | none => 443
        let tlsOpt : Option TLSOptions :=
          if vm.tls = "tls" then
            some { enabled := true,
                   serverName := if vm.host ≠ "" ∧ vm.sni = "" then vm.host else vm.sni }
          else none
        .ok { type_ := "vmess",
              tag := if vm.ps ≠ "" then vm.ps else "proxy",
              options := .vmess
                { serverOptions := { server := vm.add, serverPort := toU16 port },
                  uuid := vm.id,
                  security := "auto",
                  tls := tlsOpt,
                  transport := vmessTransportOf vm } }

/-! ## ParseShadowsocks -/

/-- The userinfo/base64 fallback of the Shadowsocks parser: try the standard
alphabet, then the URL-safe alphabet. -/
def ssB64 (s : List Char) : Option Bytes :=
  match b64DecodeStd s with
  | some d => some d
  | none => b64DecodeURL s

/-- The at-sign branch of the Shadowsocks parser: decode the userinfo when it
is base64 (else use it literally), split it at the first colon into method
and password, read the server and port from the server segment (bracketed
IPv6 handled through the last bracket-colon pair), validate, and substitute
the default port 8388 when the scanned port is out of [1,65535]. -/
def ssAtBranch (p0 p1 tag : List Char) : Except String Outbound :=
  let userInfo :=
    match ssB64 p0 with
    | some d => bytesToChars d
    | none => p0
  let mp := cutAt ':' userInfo
  let method := mp.1
  let password := mp.2.getD []
  let sp : List Char × Int :=
    if startsWithL p1 ['['] then
      match splitLastBrColon p1 with
      | some br => (br.1.drop 1, (sscanfD br.2).getD 0)
      | none =>
        if p1.getLastD ' ' = ']' then ((p1.drop 1).dropLast, 0) else ([], 0)
    else
      match splitCh ':' p1 with
      | s0 :: s1 :: _ => (s0, (sscanfD s1).getD 0)
      | s0 :: _ => (s0, 0)
      | [] => ([], 0)
  let server := sp.1
  if server.isEmpty then .error "missing server in Shadowsocks link"
  else if method.isEmpty then .error "missing method in Shadowsocks link"
  else
    let port : Int := if sp.2 < 1 ∨ sp.2 > 65535 then 8388 else sp.2
    .ok { type_ := "shadowsocks",
          tag := if tag.isEmpty then "proxy" else ⟨tag⟩,
          options := .shadowsocks
            { serverOptions := { server := ⟨server⟩, serverPort := toU16 port },
              method := ⟨method⟩,
              password := ⟨password⟩ } }

/-- The body of parseShadowsocksWithDepth, recursing structurally on a fuel
count: depth above two is the recursion error; otherwise strip the scheme and
a trailing fragment, handle the at-sign form through ssAtBranch, and for an
at-less body base64-decode the whole remainder and recurse one level deeper.
The fuel is kept at 3 - depth, so the depth guard always fires before the
fuel could run out and the fuel-exhaustion branch is unreachable. -/
def ssWithFuel : Nat → String → Nat → Except String Outbound
  | 0, _, _ => .error "too many levels of base64 encoding in Shadowsocks link"
  | f + 1, link, depth =>
    if depth > 2 then .error "too many levels of base64 encoding in Shadowsocks link"
    else
      let cs := trimPreL link.data ("ss://").data
      let bodyFrag := cutAt '#' cs
      let body := bodyFrag.1
      let tag := bodyFrag.2.getD []
      if body.contains '@' then
        match splitCh '@' body with
        | p0 :: p1 :: _ => ssAtBranch p0 p1 tag
        | _ => .error "missing server in Shadowsocks link"
      else
        match ssB64 body with
        | none => .error "invalid base64 encoding in Shadowsocks link"
        | some d => ssWithFuel f ⟨("ss://").data ++ bytesToChars d⟩ (depth + 1)

/-- parseShadowsocksWithDepth from the decoder source. -/
def parseShadowsocksWithDepth (link : String) (depth : Nat) : Except String Outbound :=
  ssWithFuel (3 - depth) link depth

/-- ParseShadowsocks from the decoder source. -/
def ParseShadowsocks (link : String) : Except String Outbound :=
  parseShadowsocksWithDepth link 0

/-! ## Parse (scheme dispatch) -/

/-- MaxShareLinkLength: the 64 KiB defensive bound. -/
def MaxShareLinkLength : Nat := 64 * 1024

/-- Parse from the decoder source: trim surrounding white space, reject
oversized input, then dispatch on the scheme prefix. -/
def Parse (link : String) : Except String Outbound :=
  let t := goTrimSpace link
  if goLen t > MaxShareLinkLength then
    .error "share link too long (max 65536 bytes)"
  else if startsWithL t.data ("vless://").data then ParseVLESS t
  else if startsWithL t.data ("vmess://").data then ParseVMess t
  else if startsWithL t.data ("ss://").data then ParseShadowsocks t
  else if startsWithL t.data ("trojan://").data then ParseTrojan t
  else if startsWithL t.data ("socks://").data || startsWithL t.data ("socks5://").data then
    ParseSOCKS t
  else if startsWithL t.data ("http://").data || startsWithL t.data ("https://").data then
    ParseHTTP t
  else
    .error ⟨("unsupported protocol: ").data ++ beforeSub ("://").data t.data⟩

/-! ## Model of netip.ParseAddr -/

def isDigitC (c : Char) : Bool := '0' ≤ c && c ≤ '9'

/-- One dotted-quad octet: one to three digits, no surplus leading zero,
value at most 255. -/
def v4Octet (p : List Char) : Option Nat :=
  if !p.isEmpty && p.length ≤ 3 && p.all isDigitC &&
     (p.length = 1 || p.headD ' ' ≠ '0') then
    let v := digitsToNat p
    if v ≤ 255 then some v else none
  else none

/-- IPv4 dotted-quad parsing: exactly four octets. -/
def parseIPv4 (s : List Char) : Option Bytes :=
  match splitCh '.' s with
  | [a, b, c, d] =>
    match v4Octet a, v4Octet b, v4Octet c, v4Octet d with
    | some x, some y, some z, some w => some [x, y, z, w]
    | _, _, _, _ => none
  | _ => none

def hexToNat (ds : List Char) : Nat :=
  ds.foldl (fun n c => n * 16 + (hexVal c).getD 0) 0

/-- One IPv6 group: one to four hexadecimal digits, yielding two bytes. -/
def hexGroup (g : List Char) : Option (Nat × Nat) :=
  if !g.isEmpty && g.length ≤ 4 && g.all isHexDigit then
    some (hexToNat g / 256, hexToNat g % 256)
  else none

/-- Cut at the first double colon. -/
def cutDC : List Char → Option (List Char × List Char)
  | [] => none
  | ':' :: ':' :: rest => some ([], rest)
  | c :: cs => (cutDC cs).map (fun pr => (c :: pr.1, pr.2))

/-- Bytes of a group list; the final group may be an embedded dotted quad
when permitted. -/
def groupsToBytes (v4AtEnd : Bool) : List (List Char) → Option Bytes
  | [] => some []
  | [g] =>
    if v4AtEnd && g.contains '.' then parseIPv4 g
    else (hexGroup g).map (fun p => [p.1, p.2])
  | g :: rest =>
    match hexGroup g, groupsToBytes v4AtEnd rest with
    | some p, some bs => some (p.1 :: p.2 :: bs)
    | _, _ => none

/-- IPv6 parsing: at most one double colon which must expand to at least one
zero group; an embedded dotted quad may close the address. -/
def parseIPv6 (s : List Char) : Option Bytes :=
  match cutDC s with
  | some (l, r) =>
    let lgs := if l.isEmpty then [] else splitCh ':' l
    let rgs := if r.isEmpty then [] else splitCh ':' r
    match groupsToBytes false lgs, groupsToBytes true rgs with
    | some lb, some rb =>
      if lb.length + rb.length ≤ 14 then
        some (lb ++ List.replicate (16 - lb.length - rb.length) 0 ++ rb)
      else none
    | _, _ => none
  | none =>
    match groupsToBytes true (splitCh ':' s) with
    | some bs => if bs.length = 16 then some bs else none
    | none => none

/-- The first structural character decides the family, as netip.ParseAddr
scans: a dot selects IPv4, a colon IPv6, a bare zone separator is an error. -/
def classifyAddr : List Char → Option Bool
  | [] => none
  | c :: cs =>
    if c = '.' then some true
    else if c = ':' then some false
    else if c = '%' then none
    else classifyAddr cs

/-- Model of netip.ParseAddr, reduced to the address bytes (an IPv6 zone is
accepted when nonempty and discarded). -/
def netipParseAddr (s : String) : Option Bytes :=
  match classifyAddr s.data with
  | some true => parseIPv4 s.data
  | some false =>
    let zc := cutAt '%' s.data
    match zc.2 with
    | some z => if z.isEmpty then none else parseIPv6 zc.1
    | none => parseIPv6 zc.1
  | none => none

/-! ## The ProxyBox lifecycle -/

/-- option.LogOptions (the fields createConfig writes). -/
structure LogOptions where
  level : String
  output : String
deriving DecidableEq

/-- option.HTTPMixedInboundOptions reduced to its listen options: the listen
address bytes and the uint16 listen port. -/
structure MixedInboundOptions where
  listen : Bytes
  listenPort : Nat
deriving DecidableEq

/-- option.Inbound as createConfig builds it. -/
structure Inbound where
  type_ : String
  tag : String
  options : MixedInboundOptions
deriving DecidableEq

/-- The single default routing rule createConfig builds: a route action
naming the outbound tag. -/
structure RouteRule where
  action : String
  outbound : String
deriving DecidableEq

/-- option.RouteOptions as createConfig builds it. -/
structure RouteOptions where
  rules : List RouteRule
  autoDetectInterface : Bool
deriving DecidableEq

/-- option.Options as createConfig builds it. -/
structure SBOptions where
  log : LogOptions
  inbounds : List Inbound
  outbounds : List Outbound
  route : RouteOptions
deriving DecidableEq

/-- ProxyBoxConfig. -/
structure ProxyBoxConfig where
  outbound : Outbound
  listenAddr : String
  logLevel : String
deriving DecidableEq

/-- The ProxyBox state: the engine handle held only while running, whether
the stored context has been cancelled, the assembled configuration and the
retained outbound. -/
structure ProxyBox where
  instance_ : Option Nat
  cancelCalled : Bool
  config : SBOptions
  outbound : Outbound
deriving DecidableEq

/-- getPortOrDefault from proxybox.go: the same branch structure as the
decoder's getPortWithDefault with the argument order swapped. -/
def getPortOrDefault (defaultPort : Int) (hostPort : String) : Int :=
  (portFromHostPort hostPort).getD defaultPort

/-- createConfig from proxybox.go: parse the listen host (loopback fallback
on failure), build the one mixed inbound, the outbound plus the fixed direct
and block outbounds, and the single catch-all route rule.  The error return
is never used. -/
def createConfig (cfg : ProxyBoxConfig) : Except String SBOptions :=
  let host : String := ⟨(splitCh ':' cfg.listenAddr.data).headD []⟩
  let listenIP := (netipParseAddr host).getD [127, 0, 0, 1]
  .ok { log := { level := cfg.logLevel, output := "stderr" },
        inbounds := [{ type_ := "mixed", tag := "mixed-in",
                       options := { listen := listenIP,
                                    listenPort := toU16 (getPortOrDefault 1080 cfg.listenAddr) } }],
        outbounds := [cfg.outbound,
                      { type_ := "direct", tag := "direct", options := .direct },
                      { type_ := "block", tag := "block", options := .block }],
        route := { rules := [{ action := "route", outbound := cfg.outbound.tag }],
                   autoDetectInterface := true } }

/-- NewProxyBox from proxybox.go: default listen address and log level, then
configuration assembly; the resulting box is idle with no engine handle. -/
def NewProxyBox (cfg : ProxyBoxConfig) : Except String ProxyBox :=
  let cfg1 := if cfg.listenAddr = "" then { cfg with listenAddr := "127.0.0.1:1080" } else cfg
  let cfg2 := if cfg1.logLevel = "" then { cfg1 with logLevel := "panic" } else cfg1
  match createConfig cfg2 with
  | .error e => .error ("create configuration: " ++ e)
  | .ok config =>
    .ok { instance_ := none, cancelCalled := false, config := config, outbound := cfg2.outbound }

instance exceptDecEq {ε α : Type} [DecidableEq ε] [DecidableEq α] : DecidableEq (Except ε α) :=
  fun x y =>
    match x, y with
    | .ok a, .ok b =>
      if h : a = b then isTrue (by rw [h]) else isFalse (by intro he; cases he; exact h rfl)
    | .error a, .error b =>
      if h : a = b then isTrue (by rw [h]) else isFalse (by intro he; cases he; exact h rfl)
    | .ok _, .error _ => isFalse (by intro he; cases he)
    | .error _, .ok _ => isFalse (by intro he; cases he)

/-- The outcomes of the external collaborators StartContext races against:
whether the supplied context is already done at entry, the context error it
would report, the result of box.New, whether the context wins the race with
the engine's Start, and the engine Start error. -/
structure StartEnv where
  ctxDoneAtEntry : Bool
  ctxErr : String
  newResult : Except String Nat
  raceCancelled : Bool
  startErr : Option String
deriving DecidableEq

/-- StartContext from proxybox.go over the external-outcome environment:
guard against a held handle, guard the context, construct the engine, race
its start against the context, and store the handle only on full success. -/
def startContext (pb : ProxyBox) (env : StartEnv) : Except String Unit × ProxyBox :=
  match pb.instance_ with
  | some _ => (.error "proxy box already started", pb)
  | none =>
    if env.ctxDoneAtEntry then (.error env.ctxErr, pb)
    else
      match env.newResult with
      | .error e => (.error ("create sing-box instance: " ++ e), pb)
      | .ok inst =>
        if env.raceCancelled then (.error env.ctxErr, pb)
        else
          match env.startErr with
          | some e => (.error ("start sing-box: " ++ e), pb)
          | none => (.ok (), { pb with instance_ := some inst })

/-- The outcomes of the external collaborators StopContext observes. -/
structure StopEnv where
  ctxDoneAtEntry : Bool
  ctxErr : String
  raceCancelled : Bool
  closeErr : Option String
deriving DecidableEq

/-- The observable events of one StopContext run, in program order. -/
inductive StopEv
  | clearHandle
  | ctxWin
  | waitClose (r : Option String)
deriving DecidableEq

/-- StopContext from proxybox.go over the external-outcome environment, with
an event trace: each event is paired with the ProxyBox state at the moment
it happens.  After the guards the handle is cleared first; only then is the
close outcome awaited (or lost to the context), and the close error is
returned verbatim. -/
def stopContextTrace (pb : ProxyBox) (env : StopEnv) :
    List (StopEv × ProxyBox) × (Except String Unit × ProxyBox) :=
  match pb.instance_ with
  | none => ([], (.error "proxy box not started", pb))
  | some _ =>
    if env.ctxDoneAtEntry then ([], (.error env.ctxErr, pb))
    else
      let pb1 := { pb with instance_ := none }
      if env.raceCancelled then
        let pb2 := { pb1 with cancelCalled := true }
        ([(.clearHandle, pb1), (.ctxWin, pb2)], (.error env.ctxErr, pb2))
      else
        let pb2 := { pb1 with cancelCalled := true }
        ([(.clearHandle, pb1), (.waitClose env.closeErr, pb2)],
         ((match env.closeErr with | some e => .error e | none => .ok ()), pb2))

/-- StopContext: the final result and state of the trace. -/
def stopContext (pb : ProxyBox) (env : StopEnv) : Except String Unit × ProxyBox :=
  (stopContextTrace pb env).2

/-- IsRunning from proxybox.go. -/
def isRunning (pb : ProxyBox) : Bool := pb.instance_.isSome

/-! ## Sample values used by the closed witness theorems -/

def sampleOutbound : Outbound := { type_ := "socks", tag := "proxy", options := .direct }

def emptySBOptions : SBOptions :=
  { log := { level := "", output := "" }, inbounds := [], outbounds := [],
    route := { rules := [], autoDetectInterface := false } }

def samplePBIdle : ProxyBox :=
  match NewProxyBox { outbound := sampleOutbound, listenAddr := "", logLevel := "" } with
  | .ok pb => pb
  | .error _ =>
    { instance_ := none, cancelCalled := false, config := emptySBOptions,
      outbound := sampleOutbound }

def samplePBRunning : ProxyBox := { samplePBIdle with instance_ := some 1 }

def sampleStartEnvOk : StartEnv :=
  { ctxDoneAtEntry := false, ctxErr := "context canceled", newResult := .ok 1,
    raceCancelled := false, startErr := none }

def sampleStopEnvOk : StopEnv :=
  { ctxDoneAtEntry := false, ctxErr := "context canceled", raceCancelled := false,
    closeErr := none }

/-! ## C6: usage errors are terminal and leave the state untouched -/

/-- C6: Start on a running lifecycle returns the already-running error and
Stop on an idle lifecycle returns the not-running error; in both cases the
whole ProxyBox state (handle, configuration, outbound, cancellation flag) is
returned exactly as it was. -/
theorem lifecycle_usage_errors (pb : ProxyBox) (es : StartEnv) (et : StopEnv) :
    (∀ i, pb.instance_ = some i → startContext pb es = (.error "proxy box already started", pb)) ∧
    (pb.instance_ = none → stopContext pb et = (.error "proxy box not started", pb)) := by
  constructor
  · intro i hi
    unfold startContext
    rw [hi]
  · intro hn
    unfold stopContext stopContextTrace
    rw [hn]

/-- Witness for C6 at concrete states and environments. -/
theorem lifecycle_usage_errors_witness :
    startContext samplePBRunning sampleStartEnvOk = (.error "proxy box already started", samplePBRunning) ∧
    stopContext samplePBIdle sampleStopEnvOk = (.error "proxy box not started", samplePBIdle) :=
  ⟨(lifecycle_usage_errors samplePBRunning sampleStartEnvOk sampleStopEnvOk).1 1 rfl,
   (lifecycle_usage_errors samplePBIdle sampleStartEnvOk sampleStopEnvOk).2 rfl⟩

/-! ## C5: Stop clears the running state before the close outcome -/

/-- C5: on a running lifecycle with the context not already cancelled, the
StopContext trace clears the handle as its first event — a state on which
IsRunning is already false, with configuration and outbound retained — and
only afterwards observes the close operation; when the context does not win
the race, the close error is what Stop returns. -/
theorem stop_clears_before_close_outcome (pb : ProxyBox) (env : StopEnv) (i : Nat)
    (hrun : pb.instance_ = some i) (hctx : env.ctxDoneAtEntry = false) :
    ∃ pb1 pb2,
      (stopContextTrace pb env).1 =
        [(StopEv.clearHandle, pb1),
         ((if env.raceCancelled then StopEv.ctxWin else StopEv.waitClose env.closeErr), pb2)] ∧
      isRunning pb1 = false ∧ isRunning pb2 = false ∧
      pb1.config = pb.config ∧ pb1.outbound = pb.outbound ∧
      (env.raceCancelled = false →
        (stopContext pb env).1 =
          (match env.closeErr with | some e => .error e | none => .ok ())) := by
  refine ⟨{ pb with instance_ := none }, { pb with instance_ := none, cancelCalled := true }, ?_⟩
  unfold stopContext stopContextTrace isRunning
  rw [hrun]
  cases hrc : env.raceCancelled <;> simp [hctx, hrc]

/-- Witness for C5 at a concrete running state with a failing close. -/
theorem stop_clears_before_close_outcome_witness :
    ∃ pb1 pb2,
      (stopContextTrace samplePBRunning { sampleStopEnvOk with closeErr := some "boom" }).1 =
        [(StopEv.clearHandle, pb1),
         ((if ({ sampleStopEnvOk with closeErr := some "boom" } : StopEnv).raceCancelled then
             StopEv.ctxWin
           else StopEv.waitClose ({ sampleStopEnvOk with closeErr := some "boom" } : StopEnv).closeErr), pb2)] ∧
      isRunning pb1 = false ∧ isRunning pb2 = false ∧
      pb1.config = samplePBRunning.config ∧ pb1.outbound = samplePBRunning.outbound ∧
      (({ sampleStopEnvOk with closeErr := some "boom" } : StopEnv).raceCancelled = false →
        (stopContext samplePBRunning { sampleStopEnvOk with closeErr := some "boom" }).1 =
          (match ({ sampleStopEnvOk with closeErr := some "boom" } : StopEnv).closeErr with
           | some e => .error e | none => .ok ())) :=
  stop_clears_before_close_outcome samplePBRunning _ 1 rfl rfl

/-! ## C2: Start/Stop cycling -/

/-- A StartContext environment in which every external step succeeds. -/
def goodStart (e : StartEnv) : Prop :=
  e.ctxDoneAtEntry = false ∧ e.raceCancelled = false ∧ e.startErr = none ∧
  ∃ i, e.newResult = .ok i

/-- A StopContext environment in which the close succeeds in time. -/
def goodStop (e : StopEnv) : Prop :=
  e.ctxDoneAtEntry = false ∧ e.raceCancelled = false ∧ e.closeErr = none

/-- Every Start/Stop pair of the list succeeds in turn: Start reports ok and
leaves the box running, the following Stop reports ok and leaves it idle, and
the configuration and outbound survive each cycle. -/
def cyclesOk (pb : ProxyBox) : List (StartEnv × StopEnv) → Prop
  | [] => True
  | (es, et) :: rest =>
    (startContext pb es).1 = .ok () ∧
    isRunning (startContext pb es).2 = true ∧
    (stopContext (startContext pb es).2 et).1 = .ok () ∧
    isRunning (stopContext (startContext pb es).2 et).2 = false ∧
    (stopContext (startContext pb es).2 et).2.config = pb.config ∧
    (stopContext (startContext pb es).2 et).2.outbound = pb.outbound ∧
    cyclesOk (stopContext (startContext pb es).2 et).2 rest

/-- C2: from an idle lifecycle, any number of Start/Stop cycles whose
external steps succeed all succeed: each Start reports ok and IsRunning
becomes true, each Stop reports ok and IsRunning becomes false, and the
retained configuration and outbound are unchanged throughout. -/
theorem start_stop_cycles (pb : ProxyBox) (envs : List (StartEnv × StopEnv))
    (hidle : pb.instance_ = none)
    (hgood : ∀ p ∈ envs, goodStart p.1 ∧ goodStop p.2) :
    cyclesOk pb envs := by
  induction envs generalizing pb with
  | nil => trivial
  | cons p rest ih =>
    obtain ⟨es, et⟩ := p
    obtain ⟨⟨hs1, hs2, hs3, i, hs4⟩, ht1, ht2, ht3⟩ := hgood (es, et) (by simp)
    have hs1e : es.ctxDoneAtEntry = false := hs1
    have hs2e : es.raceCancelled = false := hs2
    have hs3e : es.startErr = none := hs3
    have hs4e : es.newResult = Except.ok i := hs4
    have ht1e : et.ctxDoneAtEntry = false := ht1
    have ht2e : et.raceCancelled = false := ht2
    have ht3e : et.closeErr = none := ht3
    have hstart : startContext pb es = (.ok (), { pb with instance_ := some i }) := by
      unfold startContext
      rw [hidle, hs4e]
      simp [hs1e, hs2e, hs3e]
    have hstop :
        stopContext { pb with instance_ := some i } et =
          (.ok (), { pb with instance_ := none, cancelCalled := true }) := by
      unfold stopContext stopContextTrace
      simp [ht1e, ht2e, ht3e]
    refine ⟨by rw [hstart], by rw [hstart]; rfl, ?_, ?_, ?_, ?_, ?_⟩
    · rw [hstart, hstop]
    · rw [hstart, hstop]; rfl
    · rw [hstart, hstop]
    · rw [hstart, hstop]
    · rw [hstart, hstop]
      exact ih _ rfl (fun q hq => hgood q (by simp [hq]))

/-- Witness for C2: two concrete cycles from the idle sample state. -/
theorem start_stop_cycles_witness :
    cyclesOk samplePBIdle
      [(sampleStartEnvOk, sampleStopEnvOk), (sampleStartEnvOk, sampleStopEnvOk)] :=
  start_stop_cycles samplePBIdle _ rfl (by intro p hp; cases hp with
    | head => exact ⟨⟨rfl, rfl, rfl, 1, rfl⟩, rfl, rfl, rfl⟩
    | tail _ h => cases h with
      | head => exact ⟨⟨rfl, rfl, rfl, 1, rfl⟩, rfl, rfl, rfl⟩
      | tail _ h2 => cases h2)

/-! ## C9: lifecycle construction is total -/

/-- The listen address after NewProxyBox's empty-string default. -/
def effListenAddr (cfg : ProxyBoxConfig) : String :=
  if cfg.listenAddr = "" then "127.0.0.1:1080" else cfg.listenAddr

/-- The host part createConfig parses: the listen address up to the first
colon. -/
def listenHostOf (la : String) : String := ⟨(splitCh ':' la.data).headD []⟩

/-- C9: NewProxyBox never returns an error: every configuration yields an
idle box holding the outbound; an empty listen address becomes 127.0.0.1:1080,
an unparseable listen host falls back to 127.0.0.1, a missing in-range listen
port falls back to 1080, and an empty log level becomes the silent "panic"
default. -/
theorem newProxyBox_total (cfg : ProxyBoxConfig) :
    ∃ pb, NewProxyBox cfg = .ok pb ∧ pb.instance_ = none ∧ pb.cancelCalled = false ∧
      pb.outbound = cfg.outbound ∧
      pb.config.log.level = (if cfg.logLevel = "" then "panic" else cfg.logLevel) ∧
      ∃ inb : Inbound, pb.config.inbounds = [inb] ∧
        inb.options.listen = (netipParseAddr (listenHostOf (effListenAddr cfg))).getD [127, 0, 0, 1] ∧
        inb.options.listenPort = toU16 (getPortOrDefault 1080 (effListenAddr cfg)) ∧
        (netipParseAddr (listenHostOf (effListenAddr cfg)) = none →
          inb.options.listen = [127, 0, 0, 1]) ∧
        (portFromHostPort (effListenAddr cfg) = none → inb.options.listenPort = 1080) ∧
        (cfg.listenAddr = "" → inb.options.listen = [127, 0, 0, 1] ∧ inb.options.listenPort = 1080) := by
  have hok : NewProxyBox cfg = .ok
      { instance_ := none, cancelCalled := false,
        config :=
          { log := { level := if cfg.logLevel = "" then "panic" else cfg.logLevel,
                     output := "stderr" },
            inbounds := [{ type_ := "mixed", tag := "mixed-in",
                           options :=
                             { listen := (netipParseAddr (listenHostOf (effListenAddr cfg))).getD [127, 0, 0, 1],
                               listenPort := toU16 (getPortOrDefault 1080 (effListenAddr cfg)) } }],
            outbounds := [cfg.outbound,
                          { type_ := "direct", tag := "direct", options := .direct },
                          { type_ := "block", tag := "block", options := .block }],
            route := { rules := [{ action := "route", outbound := cfg.outbound.tag }],
                       autoDetectInterface := true } },
        outbound := cfg.outbound } := by
    unfold NewProxyBox createConfig effListenAddr listenHostOf
    by_cases hla : cfg.listenAddr = "" <;> by_cases hll : cfg.logLevel = "" <;> simp [hla, hll]
  refine ⟨_, hok, rfl, rfl, rfl, rfl, _, rfl, rfl, rfl, ?_, ?_, ?_⟩
  · intro h
    simp only [h, Option.getD]
  · intro h
    simp only [getPortOrDefault, h, Option.getD]
    decide
  · intro h
    have hel : effListenAddr cfg = "127.0.0.1:1080" := by
      unfold effListenAddr
      rw [h]
      simp
    rw [hel]
    constructor
    · decide
    · decide

/-- Witness for C9 at a concrete configuration (C9's statement has no
hypotheses; this instantiates it at the sample configuration). -/
theorem newProxyBox_total_witness :
    ∃ pb, NewProxyBox { outbound := sampleOutbound, listenAddr := "", logLevel := "" } = .ok pb ∧
      pb.instance_ = none ∧ pb.cancelCalled = false ∧
      pb.outbound = ({ outbound := sampleOutbound, listenAddr := "", logLevel := "" } : ProxyBoxConfig).outbound ∧
      pb.config.log.level =
        (if ({ outbound := sampleOutbound, listenAddr := "", logLevel := "" } : ProxyBoxConfig).logLevel = "" then "panic"
         else ({ outbound := sampleOutbound, listenAddr := "", logLevel := "" } : ProxyBoxConfig).logLevel) ∧
      ∃ inb : Inbound, pb.config.inbounds = [inb] ∧
        inb.options.listen =
          (netipParseAddr (listenHostOf (effListenAddr { outbound := sampleOutbound, listenAddr := "", logLevel := "" }))).getD [127, 0, 0, 1] ∧
        inb.options.listenPort =
          toU16 (getPortOrDefault 1080 (effListenAddr { outbound := sampleOutbound, listenAddr := "", logLevel := "" })) ∧
        (netipParseAddr (listenHostOf (effListenAddr { outbound := sampleOutbound, listenAddr := "", logLevel := "" })) = none →
          inb.options.listen = [127, 0, 0, 1]) ∧
        (portFromHostPort (effListenAddr { outbound := sampleOutbound, listenAddr := "", logLevel := "" }) = none →
          inb.options.listenPort = 1080) ∧
        (({ outbound := sampleOutbound, listenAddr := "", logLevel := "" } : ProxyBoxConfig).listenAddr = "" →
          inb.options.listen = [127, 0, 0, 1] ∧ inb.options.listenPort = 1080) :=
  newProxyBox_total { outbound := sampleOutbound, listenAddr := "", logLevel := "" }

/-! ## C7: the 64 KiB size gate -/

/-- C7: whenever the trimmed input is longer than 64 KiB in bytes, Parse
reports the size error; no protocol parser is consulted. -/
theorem oversized_link_rejected (link : String)
    (h : goLen (goTrimSpace link) > MaxShareLinkLength) :
    Parse link = .error "share link too long (max 65536 bytes)" := by
  unfold Parse
  simp only []
  rw [if_pos h]

theorem goLen_replicate_a (n : Nat) : goLen ⟨List.replicate n 'a'⟩ = n := by
  induction n with
  | zero => rfl
  | succ k ih =>
    simp only [List.replicate_succ, goLen] at *
    simp only [List.foldr_cons]
    rw [show List.foldr (fun c n => utf8SizeC c + n) 0 (List.replicate k 'a') = k from ih]
    rw [show utf8SizeC 'a' = 1 from rfl]
    omega

theorem trimSpace_replicate_a (n : Nat) : goTrimSpace ⟨List.replicate n 'a'⟩ = ⟨List.replicate n 'a'⟩ := by
  unfold goTrimSpace trimSpaceL
  cases n with
  | zero => rfl
  | succ k =>
    rw [List.replicate_succ, List.dropWhile_cons]
    have hs : isGoSpace 'a' = false := by decide
    rw [hs]
    simp only [Bool.false_eq_true, if_false]
    rw [← List.replicate_succ]
    rw [List.reverse_replicate]
    rw [List.replicate_succ, List.dropWhile_cons, hs]
    simp only [Bool.false_eq_true, if_false]
    rw [← List.replicate_succ, List.reverse_replicate]

/-- Witness for C7: a 65537-byte link is rejected. -/
theorem oversized_link_rejected_witness :
    Parse ⟨List.replicate 65537 'a'⟩ = .error "share link too long (max 65536 bytes)" :=
  oversized_link_rejected ⟨List.replicate 65537 'a'⟩ (by
    rw [trimSpace_replicate_a, goLen_replicate_a]
    decide)

/-! ## List lemmas for the splitting helpers -/

theorem contains_cons (c x : Char) (xs : List Char) :
    (x :: xs).contains c = (c == x || xs.contains c) := by
  cases h : (c == x) <;> simp [List.contains, List.elem, h]

theorem contains_append (c : Char) (x y : List Char) :
    (x ++ y).contains c = (x.contains c || y.contains c) := by
  induction x with
  | nil => simp [List.contains, List.elem]
  | cons a xs ih =>
    rw [List.cons_append, contains_cons, contains_cons, ih, Bool.or_assoc]

theorem contains_append_cons_self (c : Char) (x y : List Char) :
    (x ++ c :: y).contains c = true := by
  rw [contains_append, contains_cons]
  simp

theorem startsWith_append (p x : List Char) : startsWithL (p ++ x) p = true := by
  induction p with
  | nil => cases x <;> rfl
  | cons a ps ih => simp [startsWithL, ih]

theorem trimPre_append (p x : List Char) : trimPreL (p ++ x) p = x := by
  unfold trimPreL
  rw [startsWith_append]
  simp

theorem cutAt_of_not_contains (c : Char) (xs : List Char) (h : xs.contains c = false) :
    cutAt c xs = (xs, none) := by
  induction xs with
  | nil => rfl
  | cons a ys ih =>
    rw [contains_cons] at h
    have h1 : (c == a) = false := by
      cases hb : (c == a)
      · rfl
      · rw [hb] at h; simp at h
    have h2 : ys.contains c = false := by
      cases hb : ys.contains c
      · rfl
      · rw [hb] at h; simp at h
    unfold cutAt
    rw [ih h2]
    have : ¬ (a = c) := by
      intro he
      rw [he] at h1
      simp at h1
    simp [this]

theorem splitCh_ne_nil (sep : Char) (xs : List Char) : splitCh sep xs ≠ [] := by
  cases xs with
  | nil => simp [splitCh]
  | cons a ys =>
    unfold splitCh
    cases h : splitCh sep ys with
    | nil => simp
    | cons b t =>
      by_cases he : a = sep <;> simp [he]

theorem splitCh_of_not_contains (sep : Char) (xs : List Char)
    (h : xs.contains sep = false) : splitCh sep xs = [xs] := by
  induction xs with
  | nil => rfl
  | cons a ys ih =>
    rw [contains_cons] at h
    have h1 : ¬ (a = sep) := by
      intro he
      rw [he] at h
      simp at h
    have h2 : ys.contains sep = false := by
      cases hb : ys.contains sep
      · rfl
      · rw [hb] at h; simp at h
    unfold splitCh
    rw [ih h2]
    simp [h1]

theorem splitCh_append_cons (sep : Char) (a r : List Char)
    (h : a.contains sep = false) :
    splitCh sep (a ++ sep :: r) = a :: splitCh sep r := by
  induction a with
  | nil =>
    simp only [List.nil_append]
    cases hs : splitCh sep r with
    | nil => exact absurd hs (splitCh_ne_nil sep r)
    | cons b t =>
      have hst : splitCh sep (sep :: r) =
          (match splitCh sep r with
           | [] => [[]]
           | h :: t => if sep = sep then [] :: h :: t else (sep :: h) :: t) := rfl
      rw [hst, hs]
      simp
  | cons x xs ih =>
    rw [contains_cons] at h
    have h1 : ¬ (x = sep) := by
      intro he
      rw [he] at h
      simp at h
    have h2 : xs.contains sep = false := by
      cases hb : xs.contains sep
      · rfl
      · rw [hb] at h; simp at h
    rw [List.cons_append]
    have hst : splitCh sep (x :: (xs ++ sep :: r)) =
        (match splitCh sep (xs ++ sep :: r) with
         | [] => [[]]
         | h :: t => if x = sep then [] :: h :: t else (x :: h) :: t) := rfl
    rw [hst, ih h2]
    simp [h1]

/-! ## C10: surplus at signs in a Shadowsocks body are ignored -/

/-- One unfolding of parseShadowsocksWithDepth at depth 0 for a body with no
fragment that holds an at sign: the at-branch on the first two split parts. -/
theorem parseSS_at_step (body : List Char)
    (hf : body.contains '#' = false) (ha : body.contains '@' = true)
    (p0 p1 : List Char) (rest : List (List Char))
    (hs : splitCh '@' body = p0 :: p1 :: rest) :
    parseShadowsocksWithDepth ⟨("ss://").data ++ body⟩ 0 = ssAtBranch p0 p1 [] := by
  unfold parseShadowsocksWithDepth
  rw [show (3 : Nat) - 0 = 2 + 1 from rfl]
  unfold ssWithFuel
  rw [if_neg (by omega)]
  simp only [String.data]
  rw [trimPre_append, cutAt_of_not_contains _ _ hf]
  simp only [Option.getD, ha, if_true]
  rw [hs]

/-- C10: when the fragment-free Shadowsocks body holds two or more at signs
(the tail segment after the second at sign may itself hold further at
signs), decoding equals decoding of the link truncated after the second at
sign: the userinfo is the part before the first at sign, the server part the
segment strictly between the first and the second, and everything after the
second at sign is ignored. -/
theorem ss_second_at_ignored (a b c : List Char)
    (ha : a.contains '@' = false) (hb : b.contains '@' = false)
    (ha2 : a.contains '#' = false) (hb2 : b.contains '#' = false) (hc2 : c.contains '#' = false) :
    ParseShadowsocks ⟨("ss://").data ++ (a ++ '@' :: (b ++ '@' :: c))⟩ =
      ParseShadowsocks ⟨("ss://").data ++ (a ++ '@' :: b)⟩ := by
  have hbc : (b ++ '@' :: c).contains '#' = false := by
    rw [contains_append, contains_cons, hb2, hc2]
    rfl
  have hfull : (a ++ '@' :: (b ++ '@' :: c)).contains '#' = false := by
    rw [contains_append, contains_cons, ha2, hbc]
    rfl
  have hshort : (a ++ '@' :: b).contains '#' = false := by
    rw [contains_append, contains_cons, ha2, hb2]
    rfl
  have hafull : (a ++ '@' :: (b ++ '@' :: c)).contains '@' = true :=
    contains_append_cons_self '@' a _
  have hashort : (a ++ '@' :: b).contains '@' = true :=
    contains_append_cons_self '@' a b
  have hsfull : splitCh '@' (a ++ '@' :: (b ++ '@' :: c)) = a :: b :: splitCh '@' c := by
    rw [splitCh_append_cons _ _ _ ha, splitCh_append_cons _ _ _ hb]
  have hsshort : splitCh '@' (a ++ '@' :: b) = a :: b :: [] := by
    rw [splitCh_append_cons _ _ _ ha, splitCh_of_not_contains _ _ hb]
  unfold ParseShadowsocks
  rw [parseSS_at_step _ hfull hafull a b (splitCh '@' c) hsfull,
      parseSS_at_step _ hshort hashort a b [] hsshort]

/-- Witness for C10 at a concrete link whose tail holds two more at signs
(four in total): everything after the second at sign is dropped. -/
theorem ss_second_at_ignored_witness :
    ParseShadowsocks ⟨("ss://").data ++ (("aes:pw").data ++ '@' :: (("h:80").data ++ '@' :: ("jk@l@m:7").data))⟩ =
      ParseShadowsocks ⟨("ss://").data ++ (("aes:pw").data ++ '@' :: ("h:80").data)⟩ :=
  ss_second_at_ignored ("aes:pw").data ("h:80").data ("jk@l@m:7").data
    (by decide) (by decide) (by decide) (by decide) (by decide)

/-! ## C3: the Shadowsocks recursion bound -/

theorem ssWithFuel_noat_step (f d : Nat) (hd : d ≤ 2)
    (body : List Char) (hf2 : body.contains '#' = false) (ha : body.contains '@' = false)
    (b : Bytes) (hb : ssB64 body = some b) :
    ssWithFuel (f + 1) ⟨("ss://").data ++ body⟩ d =
      ssWithFuel f ⟨("ss://").data ++ bytesToChars b⟩ (d + 1) := by
  generalize hR : ssWithFuel f ⟨("ss://").data ++ bytesToChars b⟩ (d + 1) = R
  unfold ssWithFuel
  rw [if_neg (by omega)]
  simp only [String.data]
  rw [trimPre_append, cutAt_of_not_contains _ _ hf2]
  simp only [Option.getD, ha, Bool.false_eq_true, if_false]
  rw [hb]
  exact hR

/-- One at-less decode level of parseShadowsocksWithDepth below the bound. -/
theorem parseSS_noat_step (d : Nat) (hd : d ≤ 2)
    (body : List Char) (hf2 : body.contains '#' = false) (ha : body.contains '@' = false)
    (b : Bytes) (hb : ssB64 body = some b) :
    parseShadowsocksWithDepth ⟨("ss://").data ++ body⟩ d =
      parseShadowsocksWithDepth ⟨("ss://").data ++ bytesToChars b⟩ (d + 1) := by
  unfold parseShadowsocksWithDepth
  have h3 : (3 : Nat) - d = (3 - (d + 1)) + 1 := by omega
  rw [h3]
  exact ssWithFuel_noat_step (3 - (d + 1)) d hd body hf2 ha b hb

/-- Depth three is rejected outright. -/
theorem parseSS_depth3 (link : String) :
    parseShadowsocksWithDepth link 3 =
      .error "too many levels of base64 encoding in Shadowsocks link" := rfl

/-- C3 amended: the recursion is bounded at depth two, not one — an at-less
chain is unwrapped twice, and only a third at-less base64 level makes
decoding fail with the recursion error instead of decoding further. -/
theorem ss_recursion_bound (l1 l2 l3 : List Char) (b1 b2 b3 : Bytes)
    (h1f : l1.contains '#' = false) (h1a : l1.contains '@' = false) (h1d : ssB64 l1 = some b1)
    (h2e : l2 = bytesToChars b1)
    (h2f : l2.contains '#' = false) (h2a : l2.contains '@' = false) (h2d : ssB64 l2 = some b2)
    (h3e : l3 = bytesToChars b2)
    (h3f : l3.contains '#' = false) (h3a : l3.contains '@' = false) (h3d : ssB64 l3 = some b3) :
    ParseShadowsocks ⟨("ss://").data ++ l1⟩ =
      .error "too many levels of base64 encoding in Shadowsocks link" := by
  unfold ParseShadowsocks
  rw [parseSS_noat_step 0 (by omega) l1 h1f h1a b1 h1d, ← h2e,
      parseSS_noat_step 1 (by omega) l2 h2f h2a b2 h2d, ← h3e,
      parseSS_noat_step 2 (by omega) l3 h3f h3a b3 h3d]
  exact parseSS_depth3 _

/-- Witness for the amended C3: a triple-wrapped at-less link fails with the
recursion error. -/
theorem ss_recursion_bound_witness :
    ParseShadowsocks ⟨("ss://").data ++ ("WlVFOVBRPT0=").data⟩ =
      .error "too many levels of base64 encoding in Shadowsocks link" :=
  ss_recursion_bound ("WlVFOVBRPT0=").data ("ZUE9PQ==").data ("eA==").data
    (("ZUE9PQ==").data.map Char.toNat) (("eA==").data.map Char.toNat) (("x").data.map Char.toNat)
    (by decide) (by decide) (by decide)
    (by decide) (by decide) (by decide) (by decide)
    (by decide) (by decide) (by decide) (by decide)

/-- C3 counterexample: a Shadowsocks link with no at sign whose base64
decoding yields another at-less base64 blob does not fail after one extra
recursion level — it is unwrapped a second time and decodes successfully. -/
theorem ss_one_extra_level_cex :
    ("WVdWek9uQjNRR2c2T0RBPQ==").data.contains '@' = false ∧
    ssB64 ("WVdWek9uQjNRR2c2T0RBPQ==").data =
      some (("YWVzOnB3QGg6ODA=").data.map Char.toNat) ∧
    ("YWVzOnB3QGg6ODA=").data.contains '@' = false ∧
    (ssB64 ("YWVzOnB3QGg6ODA=").data).isSome = true ∧
    Parse "ss://WVdWek9uQjNRR2c2T0RBPQ==" = .ok
      { type_ := "shadowsocks", tag := "proxy",
        options := .shadowsocks
          { serverOptions := { server := "h", serverPort := 80 },
            method := "aes", password := "pw" } } :=
  ⟨by decide, by decide, by decide, by decide, by decide⟩

/-! ## C1: port-range behaviour of the six parsers -/

theorem toU16_le (i : Int) : toU16 i ≤ 65535 := by
  unfold toU16
  omega

theorem toU16_ge_one (i : Int) (h1 : 1 ≤ i) (h2 : i ≤ 65535) : 1 ≤ toU16 i := by
  unfold toU16
  omega

theorem portFromHostPort_range (hp : String) (p : Int)
    (h : portFromHostPort hp = some p) : 1 ≤ p ∧ p ≤ 65535 := by
  unfold portFromHostPort at h
  dsimp only at h
  repeat' split at h
  all_goals try exact Option.noConfusion h
  all_goals (injection h with he; subst he; assumption)

theorem getPortWithDefault_range (hp : String) (d : Int) (h1 : 1 ≤ d) (h2 : d ≤ 65535) :
    1 ≤ getPortWithDefault hp d ∧ getPortWithDefault hp d ≤ 65535 := by
  unfold getPortWithDefault
  cases hpp : portFromHostPort hp with
  | none => simpa using ⟨h1, h2⟩
  | some p =>
    have := portFromHostPort_range hp p hpp
    simpa using this

theorem parseVLESS_ok_port (link : String) (r : Outbound) (h : ParseVLESS link = .ok r) :
    r.type_ = "vless" ∧ 1 ≤ r.port ∧ r.port ≤ 65535 := by
  unfold ParseVLESS at h
  dsimp only at h
  repeat' split at h
  all_goals try exact Except.noConfusion h
  all_goals
    (injection h with he; subst he;
     exact ⟨rfl, toU16_ge_one _ (getPortWithDefault_range _ 443 (by omega) (by omega)).1
              (getPortWithDefault_range _ 443 (by omega) (by omega)).2,
            toU16_le _⟩)

theorem parseTrojan_ok_port (link : String) (r : Outbound) (h : ParseTrojan link = .ok r) :
    r.type_ = "trojan" ∧ 1 ≤ r.port ∧ r.port ≤ 65535 := by
  unfold ParseTrojan at h
  dsimp only at h
  repeat' split at h
  all_goals try exact Except.noConfusion h
  all_goals
    (injection h with he; subst he;
     exact ⟨rfl, toU16_ge_one _ (getPortWithDefault_range _ 443 (by omega) (by omega)).1
              (getPortWithDefault_range _ 443 (by omega) (by omega)).2,
            toU16_le _⟩)

theorem parseSOCKS_ok_port (link : String) (r : Outbound) (h : ParseSOCKS link = .ok r) :
    r.type_ = "socks" ∧ 1 ≤ r.port ∧ r.port ≤ 65535 := by
  unfold ParseSOCKS at h
  dsimp only at h
  repeat' split at h
  all_goals try exact Except.noConfusion h
  all_goals
    (injection h with he; subst he;
     exact ⟨rfl, toU16_ge_one _ (getPortWithDefault_range _ 1080 (by omega) (by omega)).1
              (getPortWithDefault_range _ 1080 (by omega) (by omega)).2,
            toU16_le _⟩)

theorem parseHTTP_ok_port (link : String) (r : Outbound) (h : ParseHTTP link = .ok r) :
    r.type_ = "http" ∧ 1 ≤ r.port ∧ r.port ≤ 65535 := by
  unfold ParseHTTP at h
  dsimp only at h
  repeat' split at h
  all_goals try exact Except.noConfusion h
  all_goals
    (injection h with he; subst he;
     refine ⟨rfl, ?_, toU16_le _⟩
     first
       | exact toU16_ge_one _ (getPortWithDefault_range _ 443 (by omega) (by omega)).1
           (getPortWithDefault_range _ 443 (by omega) (by omega)).2
       | exact toU16_ge_one _ (getPortWithDefault_range _ 80 (by omega) (by omega)).1
           (getPortWithDefault_range _ 80 (by omega) (by omega)).2)

theorem parseVMess_ok_port (link : String) (r : Outbound) (h : ParseVMess link = .ok r) :
    r.type_ = "vmess" ∧ r.port ≤ 65535 := by
  unfold ParseVMess at h
  dsimp only at h
  repeat' split at h
  all_goals try exact Except.noConfusion h
  all_goals
    (injection h with he; subst he;
     refine ⟨rfl, ?_⟩
     simp only [Outbound.port]
     exact toU16_le _)

theorem ssAtBranch_ok_port (p0 p1 tag : List Char) (r : Outbound)
    (h : ssAtBranch p0 p1 tag = .ok r) :
    r.type_ = "shadowsocks" ∧ 1 ≤ r.port ∧ r.port ≤ 65535 := by
  unfold ssAtBranch at h
  dsimp only at h
  repeat' split at h
  all_goals try exact Except.noConfusion h
  all_goals
    (injection h with he; subst he;
     refine ⟨rfl, ?_, ?_⟩ <;> simp only [Outbound.port] <;>
       first
         | exact toU16_le _
         | exact toU16_ge_one _ (by omega) (by omega))

theorem ssWithFuel_ok_port (fuel : Nat) (link : String) (depth : Nat) (r : Outbound)
    (h : ssWithFuel fuel link depth = .ok r) :
    r.type_ = "shadowsocks" ∧ 1 ≤ r.port ∧ r.port ≤ 65535 := by
  induction fuel generalizing link depth with
  | zero => exact Except.noConfusion h
  | succ f ih =>
    unfold ssWithFuel at h
    dsimp only at h
    repeat' split at h
    all_goals first
      | exact Except.noConfusion h
      | exact ssAtBranch_ok_port _ _ _ _ h
      | exact ih _ _ h

theorem parseShadowsocks_ok_port (link : String) (r : Outbound)
    (h : ParseShadowsocks link = .ok r) :
    r.type_ = "shadowsocks" ∧ 1 ≤ r.port ∧ r.port ≤ 65535 :=
  ssWithFuel_ok_port 3 link 0 r h

/-- C1 amended: every successful decode yields a port of at most 65535 (the
uint16 range), and every parser other than the VMess one yields a port of at
least 1; the VMess parser converts its free-form scanned port to uint16
without a range check and so may produce 0 or a truncated value. -/
theorem port_range_invariant (link : String) (r : Outbound) (h : Parse link = .ok r) :
    r.port ≤ 65535 ∧ (r.type_ ≠ "vmess" → 1 ≤ r.port) := by
  unfold Parse at h
  dsimp only at h
  repeat' split at h
  all_goals first
    | exact Except.noConfusion h
    | exact ⟨(parseVLESS_ok_port _ _ h).2.2, fun _ => (parseVLESS_ok_port _ _ h).2.1⟩
    | exact ⟨(parseVMess_ok_port _ _ h).2, fun hne => absurd (parseVMess_ok_port _ _ h).1 hne⟩
    | exact ⟨(parseShadowsocks_ok_port _ _ h).2.2, fun _ => (parseShadowsocks_ok_port _ _ h).2.1⟩
    | exact ⟨(parseTrojan_ok_port _ _ h).2.2, fun _ => (parseTrojan_ok_port _ _ h).2.1⟩
    | exact ⟨(parseSOCKS_ok_port _ _ h).2.2, fun _ => (parseSOCKS_ok_port _ _ h).2.1⟩
    | exact ⟨(parseHTTP_ok_port _ _ h).2.2, fun _ => (parseHTTP_ok_port _ _ h).2.1⟩

/-- Witness for the amended C1 at a concrete SOCKS link. -/
theorem port_range_invariant_witness :
    Outbound.port { type_ := "socks", tag := "proxy",
                    options := .socks { serverOptions := { server := "h", serverPort := 1234 },
                                        version := "5" } } ≤ 65535 ∧
    (Outbound.type_ { type_ := "socks", tag := "proxy",
                      options := .socks { serverOptions := { server := "h", serverPort := 1234 },
                                          version := "5" } } ≠ "vmess" →
      1 ≤ Outbound.port { type_ := "socks", tag := "proxy",
                          options := .socks { serverOptions := { server := "h", serverPort := 1234 },
                                              version := "5" } }) :=
  port_range_invariant "socks5://h:1234" _ (by decide)

/-- C1 counterexample: a VMess link whose JSON port field is the string "0"
decodes successfully with server port 0, outside [1,65535]. -/
theorem vmess_port_zero_cex :
    Parse "vmess://eyJhZGQiOiJoIiwiaWQiOiJhMWIyYzNkNGU1ZjY3ODkwYWJjZGVmMTIzNDU2Nzg5MCIsInBvcnQiOiIwIn0=" =
      .ok { type_ := "vmess", tag := "proxy",
            options := .vmess
              { serverOptions := { server := "h", serverPort := 0 },
                uuid := "a1b2c3d4e5f67890abcdef1234567890",
                security := "auto" } } := by
  decide

/-! ## C4: Reality demands a public key -/

/-- C4: on a VLESS link whose query sets security to reality, an absent or
empty pbk parameter makes decoding fail; with a nonempty pbk (and the other
VLESS requirements holding) decoding succeeds and the descriptor carries
Reality enabled with that public key, the sid parameter as short ID, and the
fp parameter as fingerprint, defaulting to chrome. -/
theorem vless_reality_pbk (link : String) (u : GoURL)
    (hu : goURLParse link = some u)
    (hsec : queryGet u.rawQuery "security" = "reality") :
    (queryGet u.rawQuery "pbk" = "" → ∃ e, ParseVLESS link = .error e) ∧
    (queryGet u.rawQuery "pbk" ≠ "" → usernameOf u.user ≠ "" →
     uuidMatch (usernameOf u.user) = true → u.hostname ≠ "" →
      ∃ o : VLESSOptions,
        ParseVLESS link = .ok
          { type_ := "vless",
            tag := if u.fragment ≠ "" then u.fragment else "proxy",
            options := .vless o } ∧
        o.tls = some
          { enabled := true, serverName := queryGet u.rawQuery "sni",
            utls := some
              { enabled := true,
                fingerprint := if queryGet u.rawQuery "fp" ≠ "" then
                                 queryGet u.rawQuery "fp" else "chrome" },
            reality := some
              { enabled := true, publicKey := queryGet u.rawQuery "pbk",
                shortID := queryGet u.rawQuery "sid" } }) := by
  unfold ParseVLESS
  rw [hu]
  dsimp only
  constructor
  · intro hpbk
    by_cases h1 : usernameOf u.user = ""
    · rw [if_pos h1]
      exact ⟨_, rfl⟩
    · rw [if_neg h1]
      by_cases h2 : (!uuidMatch (usernameOf u.user)) = true
      · rw [if_pos h2]
        exact ⟨_, rfl⟩
      · rw [if_neg h2]
        by_cases h3 : u.hostname = ""
        · rw [if_pos h3]
          exact ⟨_, rfl⟩
        · rw [if_neg h3, hsec]
          rw [if_pos (Or.inr rfl), if_pos rfl, if_pos hpbk]
          exact ⟨_, rfl⟩
  · intro hpbk h1 h2 h3
    rw [if_neg h1, if_neg (by simp [h2]), if_neg h3, hsec]
    rw [if_pos (Or.inr rfl), if_pos rfl, if_neg hpbk]
    exact ⟨_, rfl, rfl⟩

/-- Witness for C4 at the concrete Reality link of the spec example. -/
theorem vless_reality_pbk_witness :
    (queryGet ("security=reality&pbk=key123" : String) "pbk" = "" →
      ∃ e, ParseVLESS "vless://a1b2c3d4-e5f6-7890-abcd-ef1234567890@host:443?security=reality&pbk=key123" = .error e) ∧
    (queryGet ("security=reality&pbk=key123" : String) "pbk" ≠ "" →
     usernameOf (some { username := "a1b2c3d4-e5f6-7890-abcd-ef1234567890", password := "" }) ≠ "" →
     uuidMatch (usernameOf (some { username := "a1b2c3d4-e5f6-7890-abcd-ef1234567890", password := "" })) = true →
     GoURL.hostname { scheme := "vless",
                      user := some { username := "a1b2c3d4-e5f6-7890-abcd-ef1234567890", password := "" },
                      host := "host:443", rawQuery := "security=reality&pbk=key123", fragment := "" } ≠ "" →
      ∃ o : VLESSOptions,
        ParseVLESS "vless://a1b2c3d4-e5f6-7890-abcd-ef1234567890@host:443?security=reality&pbk=key123" = .ok
          { type_ := "vless",
            tag := if ("" : String) ≠ "" then "" else "proxy",
            options := .vless o } ∧
        o.tls = some
          { enabled := true, serverName := queryGet ("security=reality&pbk=key123" : String) "sni",
            utls := some
              { enabled := true,
                fingerprint := if queryGet ("security=reality&pbk=key123" : String) "fp" ≠ "" then
                                 queryGet ("security=reality&pbk=key123" : String) "fp" else "chrome" },
            reality := some
              { enabled := true, publicKey := queryGet ("security=reality&pbk=key123" : String) "pbk",
                shortID := queryGet ("security=reality&pbk=key123" : String) "sid" } }) :=
  vless_reality_pbk
    "vless://a1b2c3d4-e5f6-7890-abcd-ef1234567890@host:443?security=reality&pbk=key123"
    { scheme := "vless",
      user := some { username := "a1b2c3d4-e5f6-7890-abcd-ef1234567890", password := "" },
      host := "host:443", rawQuery := "security=reality&pbk=key123", fragment := "" }
    (by decide) (by decide)

/-! ## C8: HTTP/HTTPS port defaults and TLS attachment -/

theorem toU16_int_id (p : Int) (h1 : 1 ≤ p) (h2 : p ≤ 65535) : (toU16 p : Int) = p := by
  unfold toU16
  omega

/-- C8: an http or https link with a nonempty host decodes to an HTTP
outbound whose server is the hostname; the port equals the explicit in-range
authority port when present, and otherwise the scheme default (443 for
https, 80 for http); for the https scheme the attached TLS sub-record is
enabled with no server name (and no uTLS or Reality payload), and for any
other scheme no TLS sub-record is attached. -/
theorem http_port_and_tls (link : String) (u : GoURL)
    (hu : goURLParse link = some u)
    (_hsch : u.scheme = "http" ∨ u.scheme = "https")
    (hh : u.hostname ≠ "") :
    ∃ o : HTTPOptions,
      ParseHTTP link = .ok { type_ := "http", tag := "proxy", options := .http o } ∧
      o.serverOptions.server = u.hostname ∧
      1 ≤ o.serverOptions.serverPort ∧ o.serverOptions.serverPort ≤ 65535 ∧
      (∀ p : Int, portFromHostPort u.host = some p → (o.serverOptions.serverPort : Int) = p) ∧
      (portFromHostPort u.host = none →
        o.serverOptions.serverPort = if u.scheme = "https" then 443 else 80) ∧
      (u.scheme = "https" →
        o.tls = some { enabled := true, serverName := "", utls := none, reality := none }) ∧
      (u.scheme ≠ "https" → o.tls = none) ∧
      (o.tls.isSome = true ↔ u.scheme = "https") := by
  unfold ParseHTTP
  rw [hu]
  dsimp only
  rw [if_neg hh]
  have hd1 : 1 ≤ (if u.scheme = "https" then (443 : Int) else 80) := by split <;> omega
  have hd2 : (if u.scheme = "https" then (443 : Int) else 80) ≤ 65535 := by split <;> omega
  refine ⟨_, rfl, rfl, ?_, ?_, ?_, ?_, ?_, ?_, ?_⟩
  · exact toU16_ge_one _ (getPortWithDefault_range _ _ hd1 hd2).1
      (getPortWithDefault_range _ _ hd1 hd2).2
  · exact toU16_le _
  · intro p hp
    unfold getPortWithDefault
    rw [hp]
    exact toU16_int_id p (portFromHostPort_range _ _ hp).1 (portFromHostPort_range _ _ hp).2
  · intro hn
    unfold getPortWithDefault
    rw [hn]
    by_cases hs : u.scheme = "https" <;> simp [hs] <;> decide
  · intro hs
    simp [hs]
  · intro hs
    simp [hs]
  · by_cases hs : u.scheme = "https" <;> simp [hs]

/-- Witness for C8 at the concrete link of the spec example. -/
theorem http_port_and_tls_witness :
    ∃ o : HTTPOptions,
      ParseHTTP "https://h" = .ok { type_ := "http", tag := "proxy", options := .http o } ∧
      o.serverOptions.server =
        GoURL.hostname { scheme := "https", user := none, host := "h", rawQuery := "", fragment := "" } ∧
      1 ≤ o.serverOptions.serverPort ∧ o.serverOptions.serverPort ≤ 65535 ∧
      (∀ p : Int, portFromHostPort ("h" : String) = some p → (o.serverOptions.serverPort : Int) = p) ∧
      (portFromHostPort ("h" : String) = none →
        o.serverOptions.serverPort = if ("https" : String) = "https" then 443 else 80) ∧
      (("https" : String) = "https" →
        o.tls = some { enabled := true, serverName := "", utls := none, reality := none }) ∧
      (("https" : String) ≠ "https" → o.tls = none) ∧
      (o.tls.isSome = true ↔ ("https" : String) = "https") :=
  http_port_and_tls "https://h"
    { scheme := "https", user := none, host := "h", rawQuery := "", fragment := "" }
    (by decide) (Or.inr rfl) (by decide)

end Singerbox
